import Mathlib

/-!
Shallow embedding of the voice-to-obsidian repository.

The embedding models the pure content of the Python functions
`check_daily_limit`, `increment_daily_count`, `save_to_obsidian` and
`is_valid_transcription` from voice-to-obsidian.py, `parse_claude_response`
from .github/scripts/ai_developer.py, and `linear_webhook` /
`verify_linear_signature` from .github/scripts/linear_webhook_handler.py.

File system state is passed explicitly as `Option String` (the content of
the one file each function touches, or `none` when the file is absent).
An uncaught Python exception (for example `int` applied to a non-numeric
string) is modelled by an `Option`-valued result being `none`.
-/

namespace VTO

/-- The ASCII whitespace characters recognised by Python `str.strip()` and
`str.split()` (the embedding restricts Python whitespace to ASCII). -/
def isPyWs (c : Char) : Bool :=
  c == ' ' || c == '\t' || c == '\n' || c == '\r' || c == '\x0b' || c == '\x0c'

/-- Python `str.strip()` on a character list: drop leading and trailing
whitespace. -/
def stripChars (l : List Char) : List Char :=
  ((l.dropWhile isPyWs).reverse.dropWhile isPyWs).reverse

/-- Python `str.strip()`. -/
def pyStrip (s : String) : String := String.mk (stripChars s.data)

/-- Python `str.startswith(p)`. -/
def pyStartsWith (s p : String) : Bool := p.data.isPrefixOf s.data

/-- Split a character list at every occurrence of `sep`, keeping empty
pieces: the behaviour of Python `s.split(sep)` for a one-character
separator. The result is always non-empty. -/
def splitChAux (sep : Char) : List Char → List (List Char)
  | [] => [[]]
  | c :: cs =>
    let r := splitChAux sep cs
    if c == sep then [] :: r
    else (c :: r.headD []) :: r.tail

/-- Python `s.split(sep)` for a one-character separator. -/
def pySplitChar (sep : Char) (s : String) : List String :=
  (splitChAux sep s.data).map String.mk

/-- Python `s.split('\n')`, as used on the response text. -/
def pyLines (s : String) : List String := pySplitChar '\n' s

/-- Python `sep.join(xs)`. -/
def pyJoin (sep : String) : List String → String
  | [] => ""
  | [x] => x
  | x :: y :: rest => x ++ sep ++ pyJoin sep (y :: rest)

/-- Fuelled worker for Python `str.replace`: each step consumes at least one
character and one unit of fuel, so fuel equal to the input length is always
enough. -/
def replaceCharsFuel (p r : List Char) : Nat → List Char → List Char
  | 0, l => l
  | _ + 1, [] => []
  | fuel + 1, c :: cs =>
    if p.isPrefixOf (c :: cs) && !p.isEmpty then
      r ++ replaceCharsFuel p r fuel (cs.drop (p.length - 1))
    else c :: replaceCharsFuel p r fuel cs

/-- Python `s.replace(pat, rep)` on character lists: replace every
(non-overlapping, leftmost-first) occurrence of `p` by `r`. For an empty
pattern the input is returned unchanged (the one call site uses the
non-empty pattern `"=== FILE:"`, where this agrees with Python). -/
def replaceChars (p r l : List Char) : List Char := replaceCharsFuel p r l.length l

/-- Python `s.replace(pat, rep)`. -/
def pyReplace (s pat rep : String) : String :=
  String.mk (replaceChars pat.data rep.data s.data)

/-- Accumulator pass of Python `s.split()` (no separator): collect maximal
runs of non-whitespace characters; `cur` holds the current run reversed. -/
def wordsAux : List Char → List Char → List (List Char)
  | [], cur => if cur.isEmpty then [] else [cur.reverse]
  | c :: cs, cur =>
    if isPyWs c then
      if cur.isEmpty then wordsAux cs [] else cur.reverse :: wordsAux cs []
    else wordsAux cs (c :: cur)

/-- Python `len(s.split())`: the whitespace-separated word count. -/
def pyWordCount (s : String) : Nat := (wordsAux s.data []).length

/-- Value of a list of decimal digit characters, most significant first. -/
def digitsVal (l : List Char) : Nat := l.foldl (fun a c => 10 * a + (c.toNat - 48)) 0

/-- All characters are ASCII decimal digits. -/
def allDigits (l : List Char) : Bool := l.all Char.isDigit

/-- Parse a non-empty all-digit character list. -/
def parseDigits (l : List Char) : Option Nat :=
  if !l.isEmpty && allDigits l then some (digitsVal l) else none

/-- Python `int(s)`: optional surrounding whitespace, an optional sign, and
a non-empty run of decimal digits; anything else raises, modelled as
`none` (the embedding restricts Python `int` to ASCII digits without
underscore separators). -/
def pyInt (s : String) : Option Int :=
  match stripChars s.data with
  | '-' :: rest => (parseDigits rest).map (fun n => -(n : Int))
  | '+' :: rest => (parseDigits rest).map (fun n => (n : Int))
  | l => (parseDigits l).map (fun n => (n : Int))

/-- Python truthiness of an optional string: `None` and `""` are falsy. -/
def pyTruthy : Option String → Bool
  | none => false
  | some s => s != ""

/-! ## voice-to-obsidian.py: configuration and quota tracking -/

def MIN_WORDS : Nat := 5

def MAX_CHARS : Nat := 5000

def DAILY_LIMIT : Nat := 100

/-- The function `check_daily_limit` from voice-to-obsidian.py. `file` is the content of
`.automation_count.txt` (or `none` when absent); the result is the pair of
the returned boolean and the file content after the call, or `none` when
`int(count)` raises. -/
def check_daily_limit (today : String) (file : Option String) : Option (Bool × Option String) :=
  match file with
  | some content =>
    match pySplitChar ',' (pyStrip content) with
    | [date, count] =>
      if date == today then
        (pyInt count).map (fun v => (decide (v < (DAILY_LIMIT : Int)), some content))
      else some (true, some (today ++ ",0"))
    | _ => some (true, some (today ++ ",0"))
  | none => some (true, some (today ++ ",0"))

/-- The function `increment_daily_count` from voice-to-obsidian.py. `file` is the content
of `.automation_count.txt` (or `none`); the result is the file content after
the call, or `none` when `int(count)` raises. -/
def increment_daily_count (today : String) (file : Option String) : Option (Option String) :=
  match file with
  | some content =>
    match pySplitChar ',' (pyStrip content) with
    | [date, count] =>
      if date == today then
        (pyInt count).map (fun v => some (today ++ "," ++ toString (v + 1)))
      else some (some (today ++ ",1"))
    | _ => some (some (today ++ ",1"))
  | none => some (some (today ++ ",1"))

/-- The function `increment_daily_count` iterated `n` times, threading the file state and
propagating an exception. -/
def incrementN (today : String) : Nat → Option String → Option (Option String)
  | 0, file => some file
  | n + 1, file => (increment_daily_count today file).bind (incrementN today n)

/-- The function `save_to_obsidian` from voice-to-obsidian.py. `dateHeading` is
`datetime.now().strftime('%B %d, %Y')`, `timeStamp` is
`datetime.now().strftime('%I:%M %p')`, `file` the current content of the
daily note file (or `none`); the result is the file content after the
call. -/
def save_to_obsidian (dateHeading timeStamp : String) (file : Option String)
    (formatted_note : String) : String :=
  match file with
  | some content => content ++ "\n\n## " ++ timeStamp ++ "\n\n" ++ formatted_note
  | none => "# " ++ dateHeading ++ "\n\n## " ++ timeStamp ++ "\n\n" ++ formatted_note

/-- The function `is_valid_transcription` from voice-to-obsidian.py. -/
def is_valid_transcription (text : String) : Bool :=
  if text == "" || text.data.length < 10 then false
  else if pyWordCount text < MIN_WORDS then false
  else if text.data.length > MAX_CHARS then true
  else true

/-! ## ai_developer.py: parse_claude_response -/

/-- The scanning state of `parse_claude_response`: the `files` dict, the
`current_file` variable (`none` is Python `None`), the `current_content`
line buffer, and the `in_file` flag. -/
structure ParseState where
  files : List (String × String)
  currentFile : Option String
  currentContent : List String
  inFile : Bool
deriving DecidableEq

/-- Python dict insertion `d[k] = v` on an association list: replace the
value at an existing key in place, otherwise append the new binding. -/
def dictInsert : List (String × String) → String → String → List (String × String)
  | [], k, v => [(k, v)]
  | p :: rest, k, v => if p.1 == k then (k, v) :: rest else p :: dictInsert rest k v

/-- The filename extraction of `parse_claude_response` on a start-marker
line: `line.replace('=== FILE:', '').strip()`. -/
def extractName (line : String) : String := pyStrip (pyReplace line "=== FILE:" "")

def initState : ParseState := ⟨[], none, [], false⟩

/-- One iteration of the `for line in lines` loop of
`parse_claude_response`. -/
def parseLine (s : ParseState) (line : String) : ParseState :=
  if pyStartsWith line "=== FILE:" then
    { s with currentFile := some (extractName line), currentContent := [], inFile := true }
  else if pyStartsWith line "=== END FILE" then
    if pyTruthy s.currentFile then
      { files := dictInsert s.files (s.currentFile.getD "") (pyJoin "\n" s.currentContent),
        currentFile := none, currentContent := [], inFile := false }
    else { s with inFile := false }
  else if s.inFile then
    { s with currentContent := s.currentContent ++ [line] }
  else s

/-- The whole scanning loop of `parse_claude_response`. -/
def scanLines (ls : List String) : ParseState := ls.foldl parseLine initState

/-- The function `parse_claude_response` from ai_developer.py: scan the lines, then, when
no file was committed and the stripped response is non-empty, fall back to
the single implicit file `voice_to_obsidian.py` holding the stripped
response. -/
def parse_claude_response (response_text : String) : List (String × String) :=
  let files := (scanLines (pyLines response_text)).files
  if files.isEmpty && pyStrip response_text != "" then
    dictInsert files "voice_to_obsidian.py" (pyStrip response_text)
  else files

/-! ## linear_webhook_handler.py -/

def TARGET_LABEL : String := "ai-development"

/-- The parts of an incoming webhook request read by `linear_webhook`: the
optional `Linear-Signature` header, the raw body, `data.get('type')`,
`data.get('action')`, and the `label.get('name')` of each entry of
`data.data.labels`. -/
structure WebhookEvent where
  signatureHeader : Option String
  rawBody : String
  evType : Option String
  evAction : Option String
  labelNames : List (Option String)
deriving DecidableEq

/-- The function `verify_linear_signature` from linear_webhook_handler.py. The
HMAC-SHA256 hex digest is abstracted as the function `digest` mapping
(secret, payload) to the hex string; `hmac.compare_digest` is
constant-time string equality. -/
def verify_linear_signature (digest : String → String → String)
    (payload sig secret : String) : Bool :=
  if secret == "" then true
  else sig == digest secret payload

/-- The repository-dispatch leg of `linear_webhook`: one POST to the GitHub
dispatch endpoint; the local status is 200 when the remote answers 204 and
500 otherwise. The second component counts the dispatch requests made. -/
def dispatchLeg (remoteStatus : Nat) : Nat × Nat :=
  if remoteStatus == 204 then (200, 1) else (500, 1)

/-- The body of `linear_webhook` after the signature check: the event-type
and label filters, then the dispatch leg. -/
def processEvent (ev : WebhookEvent) (remoteStatus : Nat) : Nat × Nat :=
  if ev.evType != some "Issue" || ev.evAction != some "update" then (200, 0)
  else if !(ev.labelNames.any (fun n => n == some TARGET_LABEL)) then (200, 0)
  else dispatchLeg remoteStatus

/-- The function `linear_webhook` from linear_webhook_handler.py. `webhookSecret` is the
optional environment variable `LINEAR_WEBHOOK_SECRET`; `remoteStatus` the
status code the dispatch endpoint would answer. The result is the local
HTTP status paired with the number of dispatch requests made. -/
def linear_webhook (digest : String → String → String) (webhookSecret : Option String)
    (ev : WebhookEvent) (remoteStatus : Nat) : Nat × Nat :=
  if pyTruthy webhookSecret && pyTruthy ev.signatureHeader then
    if !(verify_linear_signature digest ev.rawBody (ev.signatureHeader.getD "")
        (webhookSecret.getD "")) then (401, 0)
    else processEvent ev remoteStatus
  else processEvent ev remoteStatus


/-- Invariant of the scanning loop of `parse_claude_response`: whenever
`current_file` is `None`, the content buffer is empty and the `in_file`
flag is down. -/
def goodState (s : ParseState) : Prop :=
  s.currentFile = none → s.currentContent = [] ∧ s.inFile = false

/-- The decimal digit characters of a natural number, most significant
first: the reference form of `Nat.repr`. -/
def decDigits (n : Nat) : List Char :=
  if _h : n < 10 then [Nat.digitChar n]
  else decDigits (n / 10) ++ [Nat.digitChar (n % 10)]
termination_by n
decreasing_by
  exact Nat.div_lt_self (by omega) (by omega)

/-! ## Theorems -/

/-- C4: `is_valid_transcription` accepts exactly the texts of length at
least 10 whose whitespace-split word count is at least `MIN_WORDS` (5);
texts longer than `MAX_CHARS` are still accepted (the warning is only
printed, nothing is rejected or truncated by the filter). -/
theorem C4_validity_filter (t : String) :
    is_valid_transcription t = true ↔ 10 ≤ t.data.length ∧ MIN_WORDS ≤ pyWordCount t := by
  unfold is_valid_transcription
  split_ifs with h1 h2 h3
  · simp only [Bool.or_eq_true, beq_iff_eq, decide_eq_true_eq] at h1
    simp only [false_iff, not_and, not_le, MIN_WORDS]
    intro hlen
    rcases h1 with h | h
    · exact absurd (h ▸ hlen) (by decide)
    · omega
  · simp only [false_iff, not_and, not_le, MIN_WORDS]
    intro _
    simpa [MIN_WORDS] using h2
  · simp only [true_iff, MIN_WORDS]
    simp only [Bool.or_eq_true, beq_iff_eq, decide_eq_true_eq, not_or] at h1
    simp only [MIN_WORDS, not_lt] at h2
    omega
  · simp only [true_iff, MIN_WORDS]
    simp only [Bool.or_eq_true, beq_iff_eq, decide_eq_true_eq, not_or] at h1
    simp only [MIN_WORDS, not_lt] at h2
    omega

/-- C9: two notes written by `save_to_obsidian` on the same date land in one
file; the first write creates it with the top-level date heading, the
second write appends the timestamped section of B strictly after the
complete first content, leaving it unmodified (the old content is a prefix
of the new content). -/
theorem C9_note_append (dateHeading t1 t2 A B : String) :
    save_to_obsidian dateHeading t1 none A =
      ("# " ++ dateHeading ++ "\n\n## " ++ t1 ++ "\n\n") ++ A ∧
    save_to_obsidian dateHeading t2 (some (save_to_obsidian dateHeading t1 none A)) B =
      save_to_obsidian dateHeading t1 none A ++ ("\n\n## " ++ t2 ++ "\n\n" ++ B) ∧
    (save_to_obsidian dateHeading t1 none A).data <+:
      (save_to_obsidian dateHeading t2 (some (save_to_obsidian dateHeading t1 none A)) B).data := by
  have h2 : save_to_obsidian dateHeading t2 (some (save_to_obsidian dateHeading t1 none A)) B =
      save_to_obsidian dateHeading t1 none A ++ ("\n\n## " ++ t2 ++ "\n\n" ++ B) := by
    simp [save_to_obsidian, String.append_assoc]
  refine ⟨by simp [save_to_obsidian, String.append_assoc], h2, ?_⟩
  rw [h2, String.data_append]
  exact List.prefix_append _ _


/-- C7: on the three-line response `=== FILE: a.txt ===` / `HELLO` /
`=== END FILE ===` the parser commits the buffered line under the recorded
filename — but `line.replace('=== FILE:', '').strip()` keeps the trailing
` ===` of the start marker, so the recorded filename is `a.txt ===`, not
the `a.txt` the prompt template documents. -/
theorem C7_marker_eval :
    parse_claude_response "=== FILE: a.txt ===\nHELLO\n=== END FILE ===" =
      [("a.txt ===", "HELLO")] ∧
    extractName "=== FILE: a.txt ===" ≠ "a.txt" := by
  constructor
  · rfl
  · decide

/-- C2 counterexample: an event that passes every filter and triggers the
dispatch call, where the dispatch endpoint answers 404 but the local
response status is 500 — the remote status is not propagated. -/
theorem C2_counterexample :
    linear_webhook (fun _ _ => "") none
        ⟨none, "", some "Issue", some "update", [some "ai-development"]⟩ 404 = (500, 1) ∧
    (500 : Nat) ≠ 404 := by
  constructor
  · rfl
  · decide

/-- C2 (amended): for every event that passes the signature check and the
filters and so triggers the dispatch call, the local response status is 200
when the remote dispatch status is 204 and 500 otherwise, and exactly one
dispatch request is made (no retry). -/
theorem C2_dispatch_status (digest : String → String → String) (secret : Option String)
    (ev : WebhookEvent) (remote : Nat)
    (hType : ev.evType = some "Issue") (hAct : ev.evAction = some "update")
    (hLabel : ev.labelNames.any (fun n => n == some TARGET_LABEL) = true)
    (hSig : (pyTruthy secret && pyTruthy ev.signatureHeader) = true →
      verify_linear_signature digest ev.rawBody (ev.signatureHeader.getD "")
        (secret.getD "") = true) :
    linear_webhook digest secret ev remote = (if remote == 204 then 200 else 500, 1) := by
  have hproc : processEvent ev remote = (if remote == 204 then 200 else 500, 1) := by
    unfold processEvent dispatchLeg
    rw [hType, hAct]
    simp only [bne_self_eq_false, Bool.or_self, Bool.false_eq_true, if_false, hLabel,
      Bool.not_true, Bool.false_eq_true, if_false]
    split <;> rfl
  unfold linear_webhook
  by_cases hs : (pyTruthy secret && pyTruthy ev.signatureHeader) = true
  · rw [if_pos hs, hSig hs]
    rw [if_neg (by simp)]
    exact hproc
  · rw [if_neg hs]
    exact hproc

theorem C2_witness :
    linear_webhook (fun _ _ => "") none
        ⟨none, "", some "Issue", some "update", [some "ai-development"]⟩ 204 =
      (if (204 : Nat) == 204 then 200 else 500, 1) :=
  C2_dispatch_status (fun _ _ => "") none
    ⟨none, "", some "Issue", some "update", [some "ai-development"]⟩ 204
    rfl rfl (by decide) (by decide)

/-- Helper: the post-signature-check body of the handler never answers
401. -/
theorem processEvent_fst_ne_401 (ev : WebhookEvent) (remote : Nat) :
    (processEvent ev remote).1 ≠ 401 := by
  unfold processEvent dispatchLeg
  split_ifs <;> simp

/-- C10: the handler answers 401 exactly when the webhook secret is
configured (non-empty), the `Linear-Signature` header carries a non-empty
value, and that value differs from the HMAC digest of the raw body; in
particular, with a secret configured but no signature header at all, the
request is processed exactly as if no verification existed (fail-open). -/
theorem C10_signature_fail_open (digest : String → String → String)
    (secret : Option String) (ev : WebhookEvent) (remote : Nat) :
    ((linear_webhook digest secret ev remote).1 = 401 ↔
      (pyTruthy secret = true ∧ pyTruthy ev.signatureHeader = true ∧
        ev.signatureHeader.getD "" ≠ digest (secret.getD "") ev.rawBody)) ∧
    (ev.signatureHeader = none →
      linear_webhook digest secret ev remote = processEvent ev remote) := by
  constructor
  · by_cases hsec : pyTruthy secret = true
    · by_cases hsig : pyTruthy ev.signatureHeader = true
      · have hcond : (pyTruthy secret && pyTruthy ev.signatureHeader) = true := by
          rw [hsec, hsig]; rfl
        have hsne : (secret.getD "" == "") = false := by
          rcases secret with _ | s
          · simp [pyTruthy] at hsec
          · simpa [pyTruthy] using hsec
        unfold linear_webhook verify_linear_signature
        rw [if_pos hcond, hsne]
        simp only [Bool.false_eq_true, if_false]
        by_cases heq : ev.signatureHeader.getD "" = digest (secret.getD "") ev.rawBody
        · have : (ev.signatureHeader.getD "" == digest (secret.getD "") ev.rawBody) = true := by
            simpa using heq
          rw [this]
          simp only [Bool.not_true, Bool.false_eq_true, if_false]
          constructor
          · intro h; exact absurd h (processEvent_fst_ne_401 ev remote)
          · intro h; exact absurd heq h.2.2
        · have : (ev.signatureHeader.getD "" == digest (secret.getD "") ev.rawBody) = false := by
            simpa using heq
          rw [this]
          simp only [Bool.not_false, if_true]
          constructor
          · intro _; exact ⟨hsec, hsig, heq⟩
          · intro _; trivial
      · have hcond : (pyTruthy secret && pyTruthy ev.signatureHeader) = false := by
          rcases h : pyTruthy ev.signatureHeader
          · simp
          · exact absurd h hsig
        unfold linear_webhook
        rw [hcond]
        simp only [Bool.false_eq_true, if_false]
        constructor
        · intro h; exact absurd h (processEvent_fst_ne_401 ev remote)
        · intro h; exact absurd h.2.1 hsig
    · have hcond : (pyTruthy secret && pyTruthy ev.signatureHeader) = false := by
        rcases h : pyTruthy secret
        · simp
        · exact absurd h hsec
      unfold linear_webhook
      rw [hcond]
      simp only [Bool.false_eq_true, if_false]
      constructor
      · intro h; exact absurd h (processEvent_fst_ne_401 ev remote)
      · intro h; exact absurd h.1 hsec
  · intro hnone
    unfold linear_webhook
    rw [hnone]
    simp [pyTruthy]

theorem C10_witness :
    ((linear_webhook (fun _ _ => "digest") (some "s")
        ⟨some "x", "body", some "Issue", some "update", []⟩ 204).1 = 401) ∧
    (linear_webhook (fun _ _ => "digest") (some "s")
        ⟨none, "body", some "Issue", some "update", []⟩ 204 =
      processEvent ⟨none, "body", some "Issue", some "update", []⟩ 204) :=
  ⟨(C10_signature_fail_open (fun _ _ => "digest") (some "s")
      ⟨some "x", "body", some "Issue", some "update", []⟩ 204).1.mpr
    ⟨by decide, by decide, by decide⟩,
   (C10_signature_fail_open (fun _ _ => "digest") (some "s")
      ⟨none, "body", some "Issue", some "update", []⟩ 204).2 rfl⟩


/-- Helper: `check_daily_limit` on a present file, written as the match on
the parsed record. -/
theorem check_daily_limit_some (today content : String) :
    check_daily_limit today (some content) =
      match pySplitChar ',' (pyStrip content) with
      | [date, count] =>
        if date == today then
          (pyInt count).map (fun v => (decide (v < (DAILY_LIMIT : Int)), some content))
        else some (true, some (today ++ ",0"))
      | _ => some (true, some (today ++ ",0")) := rfl

/-- C1 counterexample: a pure `check_daily_limit` call on a record dated
yesterday does rewrite the stored record — on `2024-01-01,5` with today
`2024-01-02` the stored content becomes `2024-01-02,0`. -/
theorem C1_counterexample :
    check_daily_limit "2024-01-02" (some "2024-01-01,5") =
      some (true, some "2024-01-02,0") ∧
    ("2024-01-02,0" : String) ≠ "2024-01-01,5" := by
  constructor
  · rfl
  · decide

/-- C1 (amended): a pure `check_daily_limit` call on a well-formed record
whose date differs from today rewrites the stored record to `(today, 0)`
and returns true; only when the record is dated today does the check leave
the stored record unchanged (returning `count < DAILY_LIMIT`). -/
theorem C1_check_stale_resets (today content date count : String)
    (hsplit : pySplitChar ',' (pyStrip content) = [date, count]) :
    (date ≠ today →
      check_daily_limit today (some content) = some (true, some (today ++ ",0"))) ∧
    (∀ v : Int, date = today → pyInt count = some v →
      check_daily_limit today (some content) =
        some (decide (v < (DAILY_LIMIT : Int)), some content)) := by
  constructor
  · intro hne
    rw [check_daily_limit_some, hsplit]
    dsimp only
    rw [if_neg (by simpa using hne)]
  · intro v heq hv
    rw [check_daily_limit_some, hsplit]
    dsimp only
    rw [if_pos (by simpa using heq), hv]
    rfl

theorem C1_witness :
    check_daily_limit "2024-01-02" (some "2024-01-01,5") =
      some (true, some ("2024-01-02" ++ ",0")) :=
  (C1_check_stale_resets "2024-01-02" "2024-01-01,5" "2024-01-01" "5" rfl).1 (by decide)


/-- A line that starts with the end marker cannot also start with the start
marker. -/
theorem endMarker_not_fileMarker (e : String)
    (h : pyStartsWith e "=== END FILE" = true) :
    pyStartsWith e "=== FILE:" = false := by
  unfold pyStartsWith at h ⊢
  by_contra hc
  rw [Bool.not_eq_false] at hc
  rw [List.isPrefixOf_iff_prefix] at h hc
  have hlen : ("=== FILE:".data).length ≤ ("=== END FILE".data).length := by decide
  have hpre := List.prefix_of_prefix_length_le hc h hlen
  rw [← List.isPrefixOf_iff_prefix] at hpre
  exact absurd hpre (by decide)

/-- Scanning lines that contain no marker while not inside a block leaves
the state untouched. -/
theorem foldl_parseLine_inactive (ls : List String) :
    ∀ s : ParseState, s.inFile = false →
    (∀ l ∈ ls, pyStartsWith l "=== FILE:" = false ∧ pyStartsWith l "=== END FILE" = false) →
    List.foldl parseLine s ls = s := by
  induction ls with
  | nil => intro s _ _; rfl
  | cons l ls ih =>
    intro s hs hm
    have hl := hm l (List.mem_cons_self l ls)
    have hstep : parseLine s l = s := by
      unfold parseLine
      rw [hl.1, hl.2]
      simp only [Bool.false_eq_true, if_false, hs]
    rw [List.foldl_cons, hstep]
    exact ih s hs (fun x hx => hm x (List.mem_cons_of_mem l hx))

/-- Scanning lines that contain no marker while inside a block appends them
all to the content buffer. -/
theorem foldl_parseLine_buffer (ls : List String) :
    ∀ s : ParseState, s.inFile = true →
    (∀ l ∈ ls, pyStartsWith l "=== FILE:" = false ∧ pyStartsWith l "=== END FILE" = false) →
    List.foldl parseLine s ls = { s with currentContent := s.currentContent ++ ls } := by
  induction ls with
  | nil =>
    intro s _ _
    simp
  | cons l ls ih =>
    intro s hs hm
    have hl := hm l (List.mem_cons_self l ls)
    have hstep : parseLine s l = { s with currentContent := s.currentContent ++ [l] } := by
      unfold parseLine
      rw [hl.1, hl.2]
      simp only [Bool.false_eq_true, if_false, hs, if_true]
    rw [List.foldl_cons, hstep,
      ih { s with currentContent := s.currentContent ++ [l] } hs
        (fun x hx => hm x (List.mem_cons_of_mem l hx))]
    simp


theorem parseLine_goodState (s : ParseState) (h : goodState s) (line : String) :
    goodState (parseLine s line) := by
  unfold parseLine
  split_ifs with h1 h2 h3 h4
  · intro hc; simp at hc
  · intro _
    exact ⟨rfl, rfl⟩
  · intro hc
    simp only at hc
    rcases h hc with ⟨hcc, hif⟩
    exact ⟨hcc, rfl⟩
  · intro hc
    simp only at hc
    rcases h hc with ⟨_, hif⟩
    rw [hif] at h4
    simp at h4
  · exact h

theorem foldl_parseLine_goodState (ls : List String) :
    ∀ s : ParseState, goodState s → goodState (List.foldl parseLine s ls) := by
  induction ls with
  | nil => intro s h; exact h
  | cons l ls ih =>
    intro s h
    rw [List.foldl_cons]
    exact ih _ (parseLine_goodState s h l)

theorem scanLines_goodState (ls : List String) : goodState (scanLines ls) :=
  foldl_parseLine_goodState ls initState (fun _ => ⟨rfl, rfl⟩)

/-- C3 counterexample: the one-character response consisting of a single
space is non-empty and contains no marker on any line, yet the parser
returns the empty mapping, not a one-entry mapping. -/
theorem C3_counterexample :
    parse_claude_response " " = [] ∧
    (" " : String) ≠ "" ∧
    pyStartsWith " " "=== FILE:" = false ∧
    pyStartsWith " " "=== END FILE" = false := by
  refine ⟨rfl, by decide, by decide, by decide⟩

/-- C3 (amended): for every response none of whose lines starts with a
marker and whose whitespace-stripped text is non-empty, the parser returns
exactly one entry, binding the implicit default file
`voice_to_obsidian.py` to the stripped response text (a whitespace-only
response instead yields the empty mapping, and surrounding whitespace is
stripped from the committed content). -/
theorem C3_default_file (t : String)
    (hm : ∀ l ∈ pyLines t,
      pyStartsWith l "=== FILE:" = false ∧ pyStartsWith l "=== END FILE" = false)
    (hne : pyStrip t ≠ "") :
    parse_claude_response t = [("voice_to_obsidian.py", pyStrip t)] := by
  unfold parse_claude_response
  have hscan : scanLines (pyLines t) = initState :=
    foldl_parseLine_inactive (pyLines t) initState rfl hm
  rw [hscan]
  rw [if_pos (by rw [Bool.and_eq_true]; exact ⟨by rfl, by simpa using hne⟩)]
  rfl

theorem C3_witness :
    parse_claude_response "hello" = [("voice_to_obsidian.py", pyStrip "hello")] :=
  C3_default_file "hello" (by decide) (by decide)

/-- C8 counterexample: removing the unmatched end-marker line from the
response `=== END FILE ===` changes the parser output: with the line the
scan commits nothing and the no-marker fallback binds the default file to
the raw text; without the line the response is empty and the result is the
empty mapping. -/
theorem C8_counterexample :
    parse_claude_response "=== END FILE ===" ≠ parse_claude_response "" := by
  decide

/-- C8 (amended): an end-marker line met with no open file block (the
scanned `current_file` is `None`) is a no-op for the scanning phase: the
scan state over the remaining lines is unchanged, and whenever the scan
commits at least one file (so the fallback does not apply) the full parser
outputs with and without that line coincide. The full output can differ
only through the no-marker fallback, which embeds the raw response text,
including the unmatched marker line. -/
theorem C8_scan_noop (l1 l2 : List String) (e : String)
    (he : pyStartsWith e "=== END FILE" = true)
    (hopen : (scanLines l1).currentFile = none) :
    scanLines (l1 ++ e :: l2) = scanLines (l1 ++ l2) ∧
    (∀ t t', pyLines t = l1 ++ e :: l2 → pyLines t' = l1 ++ l2 →
      (scanLines (l1 ++ l2)).files ≠ [] →
      parse_claude_response t = parse_claude_response t') := by
  have hgood := scanLines_goodState l1
  have hstep : parseLine (scanLines l1) e = scanLines l1 := by
    rcases hgood hopen with ⟨hcc, hif⟩
    rcases hs : scanLines l1 with ⟨f, cf, cc, fl⟩
    rw [hs] at hopen hcc hif
    dsimp only at hopen hcc hif
    subst hopen
    subst hcc
    subst hif
    unfold parseLine
    rw [endMarker_not_fileMarker e he, he]
    rfl
  have hmain : scanLines (l1 ++ e :: l2) = scanLines (l1 ++ l2) := by
    unfold scanLines
    rw [List.foldl_append, List.foldl_append, List.foldl_cons]
    show List.foldl parseLine (parseLine (scanLines l1) e) l2 =
      List.foldl parseLine (scanLines l1) l2
    rw [hstep]
  refine ⟨hmain, ?_⟩
  intro t t' ht ht' hne
  unfold parse_claude_response
  rw [ht, ht', hmain]
  rw [if_neg (by simp [hne]), if_neg (by simp [hne])]

theorem C8_witness :
    parse_claude_response "=== FILE: a ===\nX\n=== END FILE ===\n=== END FILE ===" =
      parse_claude_response "=== FILE: a ===\nX\n=== END FILE ===" :=
  (C8_scan_noop ["=== FILE: a ===", "X", "=== END FILE ==="] [] "=== END FILE ==="
    (by decide) rfl).2
    "=== FILE: a ===\nX\n=== END FILE ===\n=== END FILE ==="
    "=== FILE: a ===\nX\n=== END FILE ===" rfl rfl (by decide)


/-- C6: a response that consists of two complete marker-delimited blocks
recorded under the same filename parses to a mapping binding that filename
to the second block's content only — the later block fully overwrites the
earlier one (Python dict assignment, no merge). -/
theorem C6_last_write_wins (t s1 s2 e1 e2 : String) (c1 c2 : List String)
    (ht : pyLines t = s1 :: (c1 ++ (e1 :: (s2 :: (c2 ++ [e2])))))
    (hs1 : pyStartsWith s1 "=== FILE:" = true)
    (hs2 : pyStartsWith s2 "=== FILE:" = true)
    (he1 : pyStartsWith e1 "=== END FILE" = true)
    (he2 : pyStartsWith e2 "=== END FILE" = true)
    (hc1 : ∀ l ∈ c1,
      pyStartsWith l "=== FILE:" = false ∧ pyStartsWith l "=== END FILE" = false)
    (hc2 : ∀ l ∈ c2,
      pyStartsWith l "=== FILE:" = false ∧ pyStartsWith l "=== END FILE" = false)
    (hname : extractName s1 = extractName s2)
    (hne : extractName s2 ≠ "") :
    parse_claude_response t = [(extractName s2, pyJoin "\n" c2)] := by
  have hn1 : pyTruthy (some (extractName s1)) = true := by
    have h : extractName s1 ≠ "" := by rw [hname]; exact hne
    simpa [pyTruthy] using h
  have hn2 : pyTruthy (some (extractName s2)) = true := by
    simpa [pyTruthy] using hne
  have hA : parseLine initState s1 =
      ⟨[], some (extractName s1), [], true⟩ := by
    unfold parseLine
    rw [hs1]
    rfl
  have hB : List.foldl parseLine (⟨[], some (extractName s1), [], true⟩ : ParseState) c1 =
      ⟨[], some (extractName s1), c1, true⟩ := by
    rw [foldl_parseLine_buffer c1 _ rfl hc1]
    rfl
  have hC : parseLine (⟨[], some (extractName s1), c1, true⟩ : ParseState) e1 =
      ⟨[(extractName s1, pyJoin "\n" c1)], none, [], false⟩ := by
    unfold parseLine
    rw [endMarker_not_fileMarker e1 he1, he1]
    simp only [Bool.false_eq_true, if_false, if_true, hn1]
    rfl
  have hD : parseLine (⟨[(extractName s1, pyJoin "\n" c1)], none, [], false⟩ : ParseState) s2 =
      ⟨[(extractName s1, pyJoin "\n" c1)], some (extractName s2), [], true⟩ := by
    unfold parseLine
    rw [hs2]
    rfl
  have hE : List.foldl parseLine
      (⟨[(extractName s1, pyJoin "\n" c1)], some (extractName s2), [], true⟩ : ParseState) c2 =
      ⟨[(extractName s1, pyJoin "\n" c1)], some (extractName s2), c2, true⟩ := by
    rw [foldl_parseLine_buffer c2 _ rfl hc2]
    rfl
  have hF : parseLine
      (⟨[(extractName s1, pyJoin "\n" c1)], some (extractName s2), c2, true⟩ : ParseState) e2 =
      ⟨[(extractName s2, pyJoin "\n" c2)], none, [], false⟩ := by
    unfold parseLine
    rw [endMarker_not_fileMarker e2 he2, he2]
    simp only [Bool.false_eq_true, if_false, if_true, hn2]
    rw [hname]
    simp [dictInsert]
  have hscan : scanLines (s1 :: (c1 ++ (e1 :: (s2 :: (c2 ++ [e2]))))) =
      ⟨[(extractName s2, pyJoin "\n" c2)], none, [], false⟩ := by
    unfold scanLines
    rw [List.foldl_cons, hA, List.foldl_append, hB, List.foldl_cons, hC,
      List.foldl_cons, hD, List.foldl_append, hE, List.foldl_cons, hF]
    rfl
  unfold parse_claude_response
  rw [ht, hscan]
  rfl

theorem C6_witness :
    parse_claude_response
        "=== FILE: a ===\nX\n=== END FILE ===\n=== FILE: a ===\nY\n=== END FILE ===" =
      [(extractName "=== FILE: a ===", pyJoin "\n" ["Y"])] :=
  C6_last_write_wins
    "=== FILE: a ===\nX\n=== END FILE ===\n=== FILE: a ===\nY\n=== END FILE ==="
    "=== FILE: a ===" "=== FILE: a ===" "=== END FILE ===" "=== END FILE ==="
    ["X"] ["Y"] rfl (by decide) (by decide) (by decide) (by decide)
    (by decide) (by decide) rfl (by decide)


theorem digitChar_isDigit (m : Nat) (h : m < 10) : (Nat.digitChar m).isDigit = true := by
  interval_cases m <;> decide

theorem digitChar_toNat (m : Nat) (h : m < 10) : (Nat.digitChar m).toNat = 48 + m := by
  interval_cases m <;> decide

theorem toDigitsCore_eq_decDigits :
    ∀ (fuel n : Nat) (acc : List Char), n < fuel →
      Nat.toDigitsCore 10 fuel n acc = decDigits n ++ acc := by
  intro fuel
  induction fuel with
  | zero => intro n acc h; omega
  | succ f ih =>
    intro n acc h
    rw [Nat.toDigitsCore]
    by_cases hz : n / 10 = 0
    · have hlt : n < 10 := by
        by_contra h2
        have h1 : 1 ≤ n / 10 := (Nat.le_div_iff_mul_le (by omega)).mpr (by omega)
        omega
      rw [if_pos hz, decDigits, dif_pos hlt, Nat.mod_eq_of_lt hlt]
      rfl
    · have h10 : 10 ≤ n := by
        by_contra h2
        push_neg at h2
        exact hz (Nat.div_eq_of_lt h2)
      have hdiv : n / 10 < n := Nat.div_lt_self (by omega) (by omega)
      have hd : decDigits n = decDigits (n / 10) ++ [Nat.digitChar (n % 10)] := by
        rw [decDigits]
        rw [dif_neg (by omega)]
      rw [if_neg hz, ih (n / 10) _ (by omega), hd]
      simp [List.append_assoc]

theorem repr_data (n : Nat) : (Nat.repr n).data = decDigits n := by
  unfold Nat.repr Nat.toDigits
  rw [toDigitsCore_eq_decDigits (n + 1) n [] (by omega)]
  simp [List.asString]

theorem decDigits_all_digits (n : Nat) : ∀ c ∈ decDigits n, c.isDigit = true := by
  induction n using Nat.strong_induction_on with
  | _ n ih =>
    rw [decDigits]
    split_ifs with h
    · intro c hc
      rw [List.mem_singleton] at hc
      subst hc
      exact digitChar_isDigit n h
    · intro c hc
      rw [List.mem_append] at hc
      rcases hc with hc | hc
      · exact ih (n / 10) (Nat.div_lt_self (by omega) (by omega)) c hc
      · rw [List.mem_singleton] at hc
        subst hc
        exact digitChar_isDigit _ (Nat.mod_lt _ (by omega))

theorem decDigits_ne_nil (n : Nat) : decDigits n ≠ [] := by
  rw [decDigits]
  split_ifs <;> simp

theorem foldl_decDigits (n : Nat) :
    ∀ a : Nat, List.foldl (fun a c => 10 * a + (c.toNat - 48)) a (decDigits n) =
      a * 10 ^ (decDigits n).length + n := by
  induction n using Nat.strong_induction_on with
  | _ n ih =>
    intro a
    rw [decDigits]
    split_ifs with h
    · simp only [List.foldl_cons, List.foldl_nil, List.length_singleton]
      rw [digitChar_toNat n h, pow_one]
      omega
    · have h10 : 10 ≤ n := by omega
      rw [List.foldl_append, ih (n / 10) (Nat.div_lt_self (by omega) (by omega)) a]
      simp only [List.foldl_cons, List.foldl_nil, List.length_append, List.length_singleton]
      rw [digitChar_toNat (n % 10) (Nat.mod_lt _ (by omega))]
      have hdm : 10 * (n / 10) + n % 10 = n := by omega
      have hsub : 48 + n % 10 - 48 = n % 10 := by omega
      rw [hsub, pow_succ]
      calc 10 * (a * 10 ^ (decDigits (n / 10)).length + n / 10) + n % 10
          = a * (10 ^ (decDigits (n / 10)).length * 10) + (10 * (n / 10) + n % 10) := by ring
        _ = a * (10 ^ (decDigits (n / 10)).length * 10) + n := by rw [hdm]

theorem digitsVal_decDigits (n : Nat) : digitsVal (decDigits n) = n := by
  unfold digitsVal
  rw [foldl_decDigits n 0]
  simp

theorem isDigit_not_ws (c : Char) (h : c.isDigit = true) : isPyWs c = false := by
  cases hw : isPyWs c
  · rfl
  · exfalso
    unfold isPyWs at hw
    simp only [Bool.or_eq_true, beq_iff_eq] at hw
    rcases hw with ((((h1 | h1) | h1) | h1) | h1) | h1 <;> subst h1 <;> exact absurd h (by decide)

theorem isDigit_ne_comma (c : Char) (h : c.isDigit = true) : c ≠ ',' := by
  intro he
  subst he
  exact absurd h (by decide)

theorem repr_no_ws (n : Nat) : ∀ c ∈ (Nat.repr n).data, isPyWs c = false := by
  intro c hc
  rw [repr_data] at hc
  exact isDigit_not_ws c (decDigits_all_digits n c hc)

theorem repr_no_comma (n : Nat) : (',' : Char) ∉ (Nat.repr n).data := by
  intro hc
  rw [repr_data] at hc
  exact isDigit_ne_comma ',' (decDigits_all_digits n ',' hc) rfl


theorem dropWhile_no_ws (l : List Char) (h : ∀ c ∈ l, isPyWs c = false) :
    l.dropWhile isPyWs = l := by
  cases l with
  | nil => rfl
  | cons c cs =>
    rw [List.dropWhile_cons, h c (List.mem_cons_self c cs)]
    simp

theorem stripChars_no_ws (l : List Char) (h : ∀ c ∈ l, isPyWs c = false) :
    stripChars l = l := by
  unfold stripChars
  rw [dropWhile_no_ws l h,
    dropWhile_no_ws l.reverse (fun c hc => h c (List.mem_reverse.mp hc))]
  exact List.reverse_reverse l

theorem pyStrip_no_ws (s : String) (h : ∀ c ∈ s.data, isPyWs c = false) :
    pyStrip s = s := by
  unfold pyStrip
  rw [stripChars_no_ws s.data h]

theorem splitChAux_no_sep (sep : Char) (l : List Char) (h : sep ∉ l) :
    splitChAux sep l = [l] := by
  induction l with
  | nil => rfl
  | cons c cs ih =>
    have hc : (c == sep) = false := by
      simp only [beq_eq_false_iff_ne, ne_eq]
      intro he
      exact h (he ▸ List.mem_cons_self c cs)
    have hcs : sep ∉ cs := fun hm => h (List.mem_cons_of_mem c hm)
    simp only [splitChAux]
    rw [ih hcs, hc]
    simp

theorem splitChAux_append (sep : Char) (l1 l2 : List Char) (h : sep ∉ l1) :
    splitChAux sep (l1 ++ sep :: l2) = l1 :: splitChAux sep l2 := by
  induction l1 with
  | nil =>
    simp only [List.nil_append, splitChAux]
    rw [beq_self_eq_true]
    simp
  | cons c cs ih =>
    have hc : (c == sep) = false := by
      simp only [beq_eq_false_iff_ne, ne_eq]
      intro he
      exact h (he ▸ List.mem_cons_self c cs)
    have hcs : sep ∉ cs := fun hm => h (List.mem_cons_of_mem c hm)
    simp only [List.cons_append, splitChAux, List.append_eq]
    rw [ih hcs, hc]
    simp

theorem record_data (today cnt : String) :
    (today ++ "," ++ cnt).data = today.data ++ ',' :: cnt.data := by
  rw [String.data_append, String.data_append, List.append_assoc]
  rfl

theorem pySplitChar_record (today cnt : String)
    (h1 : (',' : Char) ∉ today.data) (h2 : (',' : Char) ∉ cnt.data) :
    pySplitChar ',' (today ++ "," ++ cnt) = [today, cnt] := by
  unfold pySplitChar
  rw [record_data, splitChAux_append ',' today.data cnt.data h1,
    splitChAux_no_sep ',' cnt.data h2]
  rfl

theorem pyInt_repr (n : Nat) : pyInt (Nat.repr n) = some (n : Int) := by
  unfold pyInt
  rw [repr_data n,
    stripChars_no_ws (decDigits n)
      (fun c hc => isDigit_not_ws c (decDigits_all_digits n c hc))]
  have hdig : ∀ c ∈ decDigits n, c.isDigit = true := decDigits_all_digits n
  have hparse : parseDigits (decDigits n) = some n := by
    unfold parseDigits allDigits
    rw [if_pos]
    · rw [digitsVal_decDigits]
    · rw [Bool.and_eq_true]
      constructor
      · simp [decDigits_ne_nil n]
      · rw [List.all_eq_true]
        exact hdig
  split
  · rename_i rest heq
    exfalso
    have hm : ('-' : Char) ∈ decDigits n := by
      rw [heq]
      exact List.mem_cons_self _ _
    exact absurd (hdig '-' hm) (by decide)
  · rename_i rest heq
    exfalso
    have hm : ('+' : Char) ∈ decDigits n := by
      rw [heq]
      exact List.mem_cons_self _ _
    exact absurd (hdig '+' hm) (by decide)
  · rw [hparse]
    rfl


/-- Helper: `increment_daily_count` on a present file, written as the match
on the parsed record. -/
theorem increment_some (today content : String) :
    increment_daily_count today (some content) =
      match pySplitChar ',' (pyStrip content) with
      | [date, count] =>
        if date == today then
          (pyInt count).map (fun v => some (today ++ "," ++ toString (v + 1)))
        else some (some (today ++ ",1"))
      | _ => some (some (today ++ ",1")) := rfl

/-- One increment on a record dated today raises the stored count by exactly
one. -/
theorem increment_today_step (today : String)
    (hd : ∀ c ∈ today.data, isPyWs c = false ∧ c ≠ ',') (k : Nat) :
    increment_daily_count today (some (today ++ "," ++ Nat.repr k)) =
      some (some (today ++ "," ++ Nat.repr (k + 1))) := by
  have hno_ws : ∀ c ∈ (today ++ "," ++ Nat.repr k).data, isPyWs c = false := by
    intro c hc
    rw [record_data] at hc
    rcases List.mem_append.mp hc with hm | hm
    · exact (hd c hm).1
    · rcases List.mem_cons.mp hm with he | hm2
      · subst he; rfl
      · exact repr_no_ws k c hm2
  have hsplit : pySplitChar ',' (pyStrip (today ++ "," ++ Nat.repr k)) = [today, Nat.repr k] := by
    rw [pyStrip_no_ws _ hno_ws]
    exact pySplitChar_record today (Nat.repr k) (fun hm => (hd ',' hm).2 rfl) (repr_no_comma k)
  rw [increment_some, hsplit]
  dsimp only
  rw [if_pos (by simp), pyInt_repr k, Option.map_some']
  have hcast : ((k : Int) + 1) = ((k + 1 : Nat) : Int) := by push_cast; ring
  rw [hcast]
  rfl

/-- Iterating the increment from a record `(today, k)` adds the number of
iterations to the stored count. -/
theorem incrementN_repr (today : String)
    (hd : ∀ c ∈ today.data, isPyWs c = false ∧ c ≠ ',') :
    ∀ n k : Nat, incrementN today n (some (today ++ "," ++ Nat.repr k)) =
      some (some (today ++ "," ++ Nat.repr (k + n))) := by
  intro n
  induction n with
  | zero => intro k; rfl
  | succ m ih =>
    intro k
    rw [incrementN, increment_today_step today hd k, Option.some_bind, ih (k + 1)]
    have h : k + 1 + m = k + (m + 1) := by omega
    rw [h]

/-- C5: starting from an absent quota record or the fresh record
`today,0`, applying `increment_daily_count` n times within the same day
stores the record `today,n`; each increment on a record dated today raises
the count by exactly one, and an increment on a record with a different
date resets the record to `today,1`. -/
theorem C5_quota_increment (today : String)
    (hd : ∀ c ∈ today.data, isPyWs c = false ∧ c ≠ ',') :
    (∀ n : Nat, incrementN today n (some (today ++ ",0")) =
      some (some (today ++ "," ++ Nat.repr n))) ∧
    (∀ n : Nat, 1 ≤ n → incrementN today n none =
      some (some (today ++ "," ++ Nat.repr n))) ∧
    (∀ k : Nat, increment_daily_count today (some (today ++ "," ++ Nat.repr k)) =
      some (some (today ++ "," ++ Nat.repr (k + 1)))) ∧
    (∀ content date count : String,
      pySplitChar ',' (pyStrip content) = [date, count] → date ≠ today →
      increment_daily_count today (some content) = some (some (today ++ ",1"))) := by
  have h0 : today ++ "," ++ Nat.repr 0 = today ++ ",0" := by
    rw [String.append_assoc]
    congr 1
  have h1 : today ++ "," ++ Nat.repr 1 = today ++ ",1" := by
    rw [String.append_assoc]
    congr 1
  refine ⟨?_, ?_, increment_today_step today hd, ?_⟩
  · intro n
    rw [← h0, incrementN_repr today hd n 0, Nat.zero_add]
  · intro n hn
    obtain ⟨m, rfl⟩ : ∃ m, n = m + 1 := ⟨n - 1, by omega⟩
    rw [incrementN]
    have hstart : increment_daily_count today none = some (some (today ++ ",1")) := rfl
    rw [hstart, Option.some_bind, ← h1, incrementN_repr today hd m 1]
    have h : 1 + m = m + 1 := by omega
    rw [h]
  · intro content date count hsplit hne
    rw [increment_some, hsplit]
    dsimp only
    rw [if_neg (by simpa using hne)]

theorem C5_witness :
    incrementN "2024-01-02" 3 none = some (some ("2024-01-02" ++ "," ++ Nat.repr 3)) :=
  (C5_quota_increment "2024-01-02" (by decide)).2.1 3 (by decide)


end VTO
